import Mathlib

/-!
Verification of the MCP proxy/relay subsystem (etz-mcp-inspector).

Shallow embedding of the server-side proxy handler
(`src/controllers/mcp.controller.ts`, plus the middleware variants in the
unnamed source parts) and the client-side communication service
(`McpCommunicationService`).  JavaScript objects are modelled by a small
JSON value type; the per-session slice of the handler's `clients` /
`clientTransports` maps is modelled as an explicit state record; external
library calls (`JSON.parse` on child output, `transport.start()`) are
modelled as parameters of the embedded functions.
-/

namespace McpInspector

/-- JSON values, modelling the JavaScript values that flow through the
proxy (request bodies, relay event payloads, child stdout lines). -/
inductive Json where
  | null : Json
  | bool (b : Bool) : Json
  | num (n : Int) : Json
  | str (s : String) : Json
  | arr (xs : List Json) : Json
  | obj (fields : List (String × Json)) : Json

/-- JavaScript truthiness of a JSON value: `null`, `false`, `0` and the
empty string are falsy; arrays and objects are always truthy. -/
def Json.truthy : Json → Bool
  | .null => false
  | .bool b => b
  | .num n => n != 0
  | .str s => s != ""
  | .arr _ => true
  | .obj _ => true

/-- Truthiness of a possibly-absent value (`undefined` is falsy). -/
def truthyOpt : Option Json → Bool
  | none => false
  | some j => j.truthy

/-- Field lookup on a JSON object (JavaScript property access); `none` for
a missing key or a non-object. -/
def Json.getField : Json → String → Option Json
  | .obj fields, key => fields.lookup key
  | _, _ => none

/-- Key-presence test, modelling the JavaScript `in` operator. -/
def Json.hasField (j : Json) (key : String) : Bool :=
  (j.getField key).isSome

/-- Property assignment `o[key] = v` on a JSON object: replaces the first
binding of `key`, or appends one if the key is absent. -/
def setFields (fields : List (String × Json)) (key : String) (v : Json) :
    List (String × Json) :=
  match fields with
  | [] => [(key, v)]
  | (k, w) :: rest =>
      if k = key then (k, v) :: rest else (k, w) :: setFields rest key v

/-- Property assignment on a JSON value (no effect on non-objects). -/
def Json.setField : Json → String → Json → Json
  | .obj fields, key, v => .obj (setFields fields key v)
  | j, _, _ => j

/-- Relay events written to a session's SSE stream, the frames
`data: \x7btype, payload\x7d` produced by `sendSseMessage`. -/
inductive RelayEvent where
  | clientIdAssigned (clientId : String) : RelayEvent
  | connectionStatus (status : String) (error : Option String) : RelayEvent
  | logMessage (source content : String) : RelayEvent
  | mcpMessage (payload : Json) : RelayEvent
  | commandError (type error : String) : RelayEvent

/-- Lowercasing of an ASCII letter, the per-character action of the
JavaScript `toLowerCase` call on the transport query parameter. -/
def lowerChar (c : Char) : Char :=
  if c.toNat ≥ 65 ∧ c.toNat ≤ 90 then Char.ofNat (c.toNat + 32) else c

/-- Embedding of the JavaScript `String.prototype.toLowerCase` call (on
the ASCII strings the transport parameter is compared against). -/
def toLowerCase (s : String) : String :=
  String.mk (s.data.map lowerChar)

/-- Per-session slice of the proxy handler state of
`McpProxyHandler` (mcp.controller.ts): whether the session id is present
in the `clients` map, whether its SSE response stream is still writable,
whether the id is present in the `clientTransports` map, how many times
`mcpTransport.close()` and `response.end()` have been invoked for it, the
events actually written to its SSE stream, and the messages written to
the child process through `transport.send`. -/
structure SessionState where
  clientRegistered : Bool
  sinkWritable : Bool
  transportRegistered : Bool
  transportCloseCalls : Nat
  sinkEndCalls : Nat
  sinkWrites : List RelayEvent
  childStdin : List Json

/-- Embedding of `McpProxyHandler.cleanupClient` (mcp.controller.ts line
1084): if a transport is registered, delete it from `clientTransports`
and call `close()` on it; if the client is registered and its response is
still writable, call `response.end()`; finally delete the client from the
`clients` map. -/
def cleanupClient (st : SessionState) : SessionState :=
  let st1 :=
    if st.transportRegistered then
      { st with transportRegistered := false,
                transportCloseCalls := st.transportCloseCalls + 1 }
    else st
  let st2 :=
    if st1.clientRegistered && st1.sinkWritable then
      { st1 with sinkWritable := false, sinkEndCalls := st1.sinkEndCalls + 1 }
    else st1
  { st2 with clientRegistered := false }

/-- Embedding of `McpProxyHandler.sendSseMessage` (mcp.controller.ts line
1052): if the client is no longer in the `clients` map or its response
stream is not writable, the event is dropped and `cleanupClient` runs;
otherwise the event frame is written to the SSE stream. -/
def sendSseMessage (st : SessionState) (ev : RelayEvent) : SessionState :=
  if !st.clientRegistered || !st.sinkWritable then
    cleanupClient st
  else
    { st with sinkWrites := st.sinkWrites ++ [ev] }

/-- Embedding of `McpProxyHandler.handleClientMessage` (mcp.controller.ts
line 1324), the `POST /mcp-proxy/message?clientId=...` handler, restricted
to the session addressed by the request.  Inputs: whether a `clientId`
query parameter was supplied, the parsed request body (`none` when the
body is missing), and whether `transport.send` resolves (`sendOk`).
Returns the HTTP status code sent and the updated session state.  The
body is forwarded to the transport verbatim. -/
def handleClientMessage (st : SessionState) (hasClientId : Bool)
    (body : Option Json) (sendOk : Bool) : Nat × SessionState :=
  if !hasClientId || body.isNone then
    (400, st)
  else if !st.transportRegistered || !st.clientRegistered then
    (404, cleanupClient st)
  else
    match body with
    | none => (400, st)
    | some m =>
        if sendOk then (200, { st with childStdin := st.childStdin ++ [m] })
        else (500, st)

/-- Embedding of the open-session phase of
`McpProxyHandler.handleSseConnection` (mcp.controller.ts line 1117) as the
sequence of relay events written to the new SSE stream, in program order.
Inputs abstract the outcomes of the external library calls: `commandOk`
(the `command` query parameter is a non-empty string), `argsOk` (the
`args` parameter is absent or parses as a JSON array of strings), `envOk`
(the `env` parameter is absent or parses as a JSON object), `spawnOk`
(`transport.start()` resolves), and `childMessages`, the JSON-RPC
messages the spawned child subsequently emits on stdout (each relayed by
the `onmessage` handler as an `mcpMessage` event).  The returned flag
records whether a child process spawn was attempted. -/
def handleSseConnection (cid : String) (transport : Option String)
    (commandOk argsOk envOk spawnOk : Bool) (childMessages : List Json) :
    List RelayEvent × Bool :=
  let assigned := RelayEvent.clientIdAssigned cid
  if !commandOk then
    ([assigned, .connectionStatus "error"
        (some "Missing or invalid command query parameter.")], false)
  else if !argsOk then
    ([assigned, .connectionStatus "error"
        (some "Invalid args query parameter format.")], false)
  else if !envOk then
    ([assigned, .connectionStatus "error"
        (some "Invalid env query parameter.")], false)
  else if toLowerCase (transport.getD "") != "stdio" then
    ([assigned, .connectionStatus "error"
        (some "Unsupported transport type. Only stdio is currently supported.")],
     false)
  else if !spawnOk then
    ([assigned, .connectionStatus "error"
        (some "Failed to start MCP process.")], true)
  else
    ([assigned, .connectionStatus "connected" none] ++
       childMessages.map RelayEvent.mcpMessage, true)

/-- Predicate for a `connectionStatus` event whose status is
`"connected"`. -/
def RelayEvent.isConnectedStatus : RelayEvent → Bool
  | .connectionStatus "connected" _ => true
  | _ => false

/-- Predicate for a `connectionStatus` event whose status is
`"error"`. -/
def RelayEvent.isErrorStatus : RelayEvent → Bool
  | .connectionStatus "error" _ => true
  | _ => false

/-- Predicate for an `mcpMessage` event. -/
def RelayEvent.isMcpMessage : RelayEvent → Bool
  | .mcpMessage _ => true
  | _ => false

/-- Character-level splitting at each newline, with a carriage return
immediately before a newline consumed together with it; this is the
delimiter behaviour of the regex split in the stdout data handler. -/
def splitLinesChars : List Char → List (List Char)
  | [] => [[]]
  | '\r' :: '\n' :: rest => [] :: splitLinesChars rest
  | '\n' :: rest => [] :: splitLinesChars rest
  | c :: rest =>
      match splitLinesChars rest with
      | h :: t => (c :: h) :: t
      | [] => [[c]]

/-- Embedding of `data.toString().split` with the newline regex in the
`mcpProcess.stdout` data handler (unnamed middleware source, line 512):
the chunk is split at each newline boundary, each line keeping its text
without the delimiter. -/
def splitLines (data : String) : List String :=
  (splitLinesChars data.data).map String.mk

/-- ASCII whitespace test for the character-level trim. -/
def isWsChar (c : Char) : Bool :=
  c = ' ' || c = '\t' || c = '\n' || c = '\r'

/-- Embedding of the `line.trim()` call guarding the per-line processing:
leading and trailing whitespace is removed. -/
def trimString (s : String) : String :=
  String.mk (((s.data.dropWhile isWsChar).reverse.dropWhile isWsChar).reverse)

/-- Embedding of the body of the per-line `forEach` in the stdout data
handler: blank lines (empty after `trim`) are skipped; a line that
`JSON.parse` accepts is relayed as an `mcpMessage` carrying the parsed
value; a line it rejects is relayed as a `logMessage` with source
`"stdout"` and content equal to the raw line.  `JSON.parse` is an
external library call, modelled by the `parse` parameter. -/
def processLine (parse : String → Option Json) (line : String) :
    List RelayEvent :=
  if trimString line = "" then []
  else
    match parse line with
    | some j => [RelayEvent.mcpMessage j]
    | none => [RelayEvent.logMessage "stdout" line]

/-- Embedding of the whole `mcpProcess.stdout.on` data handler: split the
chunk into lines and process each line in order, emitting its events onto
the session stream. -/
def processStdoutData (parse : String → Option Json) (data : String) :
    List RelayEvent :=
  go (splitLines data)
where
  go : List String → List RelayEvent
    | [] => []
    | l :: ls => processLine parse l ++ go ls

/-- Embedding of the request normalization in
`McpProxyHandler.handlePostRequest` (unnamed middleware source, lines
256-274): a body that already carries `jsonrpc` and `method` keys is kept,
with its `id` overwritten by the generated id `genId` whenever the
existing `id` is absent or falsy; a legacy body with a string `type` key
is rewrapped as a JSON-RPC request with the same falsy-or-absent id
replacement; anything else is rejected (HTTP 400). -/
def normalizeRequest (genId : String) (requestData : Json) : Option Json :=
  if requestData.hasField "jsonrpc" && requestData.hasField "method" then
    some (requestData.setField "id"
      (if truthyOpt (requestData.getField "id") then
        (requestData.getField "id").getD .null
       else .str genId))
  else
    match requestData.getField "type" with
    | some (.str t) =>
        some (Json.obj ([("jsonrpc", Json.str "2.0"),
          ("id",
            if truthyOpt (requestData.getField "id") then
              (requestData.getField "id").getD .null
            else .str genId),
          ("method", Json.str t)] ++
          (match requestData.getField "payload" with
           | some p => [("params", p)]
           | none => [])))
    | _ => none

/-- Little-endian base-36 digit expansion of fixed length `k`. -/
def toDigitsLE : Nat → Nat → List Nat
  | 0, _ => []
  | k + 1, n => n % 36 :: toDigitsLE k (n / 36)

/-- Value of a little-endian base-36 digit list. -/
def fromDigitsLE : List Nat → Nat
  | [] => 0
  | d :: ds => d + 36 * fromDigitsLE ds

/-- Embedding of `McpProxyHandler.generateClientId` (mcp.controller.ts
line 1048): the id is the string of thirteen base-36 fractional digits of
one draw of the random number generator, as produced by
`Math.random().toString(36).substring(2, 15)`.  The draw is modelled as
the natural number below `36 ^ 13` whose fixed-width base-36 expansion is
that digit string; the function is deterministic in the draw and performs
no collision check against ids already in use. -/
def generateClientId (draw : Nat) : List Nat :=
  toDigitsLE 13 draw

/-- Session ids assigned by a sequence of Open calls, one random draw per
call: each call to `handleSseConnection` begins by assigning
`generateClientId` of the next draw. -/
def openSessionIds (draws : List Nat) : List (List Nat) :=
  draws.map generateClientId

/-- Client-side queue entry pushed by
`McpCommunicationService.sendRequest` (unnamed client service source,
line 165): the request type, its payload, and an optional caller id. -/
structure PendingRequest where
  type : String
  payload : Json
  id : Option Json

/-- State of the client-side `McpCommunicationService` relevant to request
queueing: the `isConnected` and `isInitialized` flags, the `clientId`
assigned by the proxy (if any yet), the `pendingRequests` queue, the
requests actually POSTed to the Gateway inbound endpoint in order, and
the command errors reported through `onCommandError`. -/
structure McpCommState where
  isConnected : Bool
  isInitialized : Bool
  clientId : Option String
  pendingRequests : List PendingRequest
  sentToBackend : List PendingRequest
  commandErrors : List String

/-- Embedding of `McpCommunicationService.sendRequestToBackend` (unnamed
client service source, line 182): with no client id yet assigned the
request is dropped and reported through `onCommandError`; otherwise it is
POSTed to `/mcp-proxy/message` with that client id. -/
def sendRequestToBackend (st : McpCommState) (r : PendingRequest) :
    McpCommState :=
  match st.clientId with
  | none => { st with commandErrors := st.commandErrors ++ [r.type] }
  | some _ => { st with sentToBackend := st.sentToBackend ++ [r] }

/-- Embedding of `McpCommunicationService.sendRequest` (unnamed client
service source, line 162): while the service is not both connected and
initialized the request is appended to `pendingRequests`; afterwards it
is sent to the backend directly. -/
def sendRequest (st : McpCommState) (r : PendingRequest) : McpCommState :=
  if !(st.isConnected && st.isInitialized) then
    { st with pendingRequests := st.pendingRequests ++ [r] }
  else
    sendRequestToBackend st r

/-- Embedding of `McpCommunicationService.processPendingRequests` (unnamed
client service source, line 173): repeatedly shift the queue head and
send it to the backend until the queue is empty. -/
def processPendingRequests (st : McpCommState) : McpCommState :=
  match hq : st.pendingRequests with
  | [] => st
  | r :: rest =>
      processPendingRequests
        (sendRequestToBackend { st with pendingRequests := rest } r)
termination_by st.pendingRequests.length
decreasing_by
  simp only [sendRequestToBackend]
  cases st.clientId <;> simp [hq]

/-- Embedding of the `EventSource.onopen` handler of
`McpCommunicationService.connect` (unnamed client service source, lines
52-59): the session signals readiness by setting `isConnected` and
`isInitialized` and then flushing the pending queue. -/
def becomeReady (st : McpCommState) : McpCommState :=
  processPendingRequests
    { st with isConnected := true, isInitialized := true }

/-! ## Helper lemmas -/

theorem cleanupClient_sinkWrites (st : SessionState) :
    (cleanupClient st).sinkWrites = st.sinkWrites := by
  obtain ⟨cr, sw, tr, tc, se, wl, ci⟩ := st
  cases cr <;> cases sw <;> cases tr <;> simp [cleanupClient]

theorem cleanupClient_childStdin (st : SessionState) :
    (cleanupClient st).childStdin = st.childStdin := by
  obtain ⟨cr, sw, tr, tc, se, wl, ci⟩ := st
  cases cr <;> cases sw <;> cases tr <;> simp [cleanupClient]

theorem cleanupClient_clientRegistered (st : SessionState) :
    (cleanupClient st).clientRegistered = false := by
  obtain ⟨cr, sw, tr, tc, se, wl, ci⟩ := st
  cases cr <;> cases sw <;> cases tr <;> simp [cleanupClient]

theorem cleanupClient_transportRegistered (st : SessionState) :
    (cleanupClient st).transportRegistered = false := by
  obtain ⟨cr, sw, tr, tc, se, wl, ci⟩ := st
  cases cr <;> cases sw <;> cases tr <;> simp [cleanupClient]

/-! ## Claim theorems -/

/-- C2: for every session, teardown is idempotent: a second call to
`cleanupClient` leaves the state unchanged, a live transport is closed
exactly once across the two racing calls, and the sink is ended exactly
once across the two calls. -/
theorem teardown_idempotent_single_close (st : SessionState) :
    cleanupClient (cleanupClient st) = cleanupClient st ∧
    (st.transportRegistered = true →
      (cleanupClient (cleanupClient st)).transportCloseCalls
        = st.transportCloseCalls + 1) ∧
    (st.clientRegistered = true → st.sinkWritable = true →
      (cleanupClient (cleanupClient st)).sinkEndCalls = st.sinkEndCalls + 1) := by
  obtain ⟨cr, sw, tr, tc, se, wl, ci⟩ := st
  cases cr <;> cases sw <;> cases tr <;> simp [cleanupClient]

/-- C2 witness: the theorem evaluated at a fully live session. -/
theorem teardown_idempotent_single_close_witness :
    cleanupClient (cleanupClient
        ({ clientRegistered := true, sinkWritable := true,
           transportRegistered := true, transportCloseCalls := 0,
           sinkEndCalls := 0, sinkWrites := [], childStdin := [] } :
          SessionState))
      = cleanupClient
        ({ clientRegistered := true, sinkWritable := true,
           transportRegistered := true, transportCloseCalls := 0,
           sinkEndCalls := 0, sinkWrites := [], childStdin := [] } :
          SessionState) ∧
    (cleanupClient (cleanupClient
        ({ clientRegistered := true, sinkWritable := true,
           transportRegistered := true, transportCloseCalls := 0,
           sinkEndCalls := 0, sinkWrites := [], childStdin := [] } :
          SessionState))).transportCloseCalls = 1 ∧
    (cleanupClient (cleanupClient
        ({ clientRegistered := true, sinkWritable := true,
           transportRegistered := true, transportCloseCalls := 0,
           sinkEndCalls := 0, sinkWrites := [], childStdin := [] } :
          SessionState))).sinkEndCalls = 1 := by
  have h := teardown_idempotent_single_close
    ({ clientRegistered := true, sinkWritable := true,
       transportRegistered := true, transportCloseCalls := 0,
       sinkEndCalls := 0, sinkWrites := [], childStdin := [] } :
      SessionState)
  exact ⟨h.1, h.2.1 rfl, h.2.2 rfl rfl⟩

/-- C9: an attempted write of a relay event to a session whose SSE sink
is no longer writable raises nothing, writes nothing to the sink, writes
nothing to the child process, and runs the standard `cleanupClient`
teardown path. -/
theorem closed_sink_write_drops_and_cleans (st : SessionState)
    (ev : RelayEvent) (h : st.sinkWritable = false) :
    sendSseMessage st ev = cleanupClient st ∧
    (sendSseMessage st ev).sinkWrites = st.sinkWrites ∧
    (sendSseMessage st ev).childStdin = st.childStdin := by
  have hdrop : sendSseMessage st ev = cleanupClient st := by
    simp [sendSseMessage, h]
  refine ⟨hdrop, ?_, ?_⟩
  · rw [hdrop, cleanupClient_sinkWrites]
  · rw [hdrop, cleanupClient_childStdin]

/-- C9 witness: the theorem evaluated at a registered session with a
closed sink and a concrete event. -/
theorem closed_sink_write_drops_and_cleans_witness :
    sendSseMessage
        ({ clientRegistered := true, sinkWritable := false,
           transportRegistered := true, transportCloseCalls := 0,
           sinkEndCalls := 0, sinkWrites := [], childStdin := [] } :
          SessionState) (RelayEvent.logMessage "stdout" "hello")
      = cleanupClient
        ({ clientRegistered := true, sinkWritable := false,
           transportRegistered := true, transportCloseCalls := 0,
           sinkEndCalls := 0, sinkWrites := [], childStdin := [] } :
          SessionState) ∧
    (sendSseMessage
        ({ clientRegistered := true, sinkWritable := false,
           transportRegistered := true, transportCloseCalls := 0,
           sinkEndCalls := 0, sinkWrites := [], childStdin := [] } :
          SessionState) (RelayEvent.logMessage "stdout" "hello")).sinkWrites
      = [] ∧
    (sendSseMessage
        ({ clientRegistered := true, sinkWritable := false,
           transportRegistered := true, transportCloseCalls := 0,
           sinkEndCalls := 0, sinkWrites := [], childStdin := [] } :
          SessionState) (RelayEvent.logMessage "stdout" "hello")).childStdin
      = [] :=
  closed_sink_write_drops_and_cleans
    ({ clientRegistered := true, sinkWritable := false,
       transportRegistered := true, transportCloseCalls := 0,
       sinkEndCalls := 0, sinkWrites := [], childStdin := [] } :
      SessionState) (RelayEvent.logMessage "stdout" "hello") rfl

/-- C10: a Submit whose session lookup fails (transport missing or client
missing) answers 404 and runs `cleanupClient` in the same branch, so no
session state for that client id remains and no event is written to the
stream. -/
theorem submit_not_found_cleans (st : SessionState) (body : Json)
    (sendOk : Bool)
    (h : st.transportRegistered = false ∨ st.clientRegistered = false) :
    (handleClientMessage st true (some body) sendOk).1 = 404 ∧
    (handleClientMessage st true (some body) sendOk).2.clientRegistered
      = false ∧
    (handleClientMessage st true (some body) sendOk).2.transportRegistered
      = false ∧
    (handleClientMessage st true (some body) sendOk).2.sinkWrites
      = st.sinkWrites := by
  have hbranch : handleClientMessage st true (some body) sendOk
      = (404, cleanupClient st) := by
    rcases h with h | h <;> simp [handleClientMessage, h]
  rw [hbranch]
  exact ⟨rfl, cleanupClient_clientRegistered st,
    cleanupClient_transportRegistered st, cleanupClient_sinkWrites st⟩

/-- C10 witness: the theorem evaluated at a half-registered session (a
sink registered without a transport). -/
theorem submit_not_found_cleans_witness :
    (handleClientMessage
        ({ clientRegistered := true, sinkWritable := true,
           transportRegistered := false, transportCloseCalls := 0,
           sinkEndCalls := 0, sinkWrites := [], childStdin := [] } :
          SessionState) true (some (Json.obj [])) true).1 = 404 ∧
    (handleClientMessage
        ({ clientRegistered := true, sinkWritable := true,
           transportRegistered := false, transportCloseCalls := 0,
           sinkEndCalls := 0, sinkWrites := [], childStdin := [] } :
          SessionState) true (some (Json.obj [])) true).2.clientRegistered
      = false ∧
    (handleClientMessage
        ({ clientRegistered := true, sinkWritable := true,
           transportRegistered := false, transportCloseCalls := 0,
           sinkEndCalls := 0, sinkWrites := [], childStdin := [] } :
          SessionState) true (some (Json.obj [])) true).2.transportRegistered
      = false ∧
    (handleClientMessage
        ({ clientRegistered := true, sinkWritable := true,
           transportRegistered := false, transportCloseCalls := 0,
           sinkEndCalls := 0, sinkWrites := [], childStdin := [] } :
          SessionState) true (some (Json.obj [])) true).2.sinkWrites
      = [] :=
  submit_not_found_cleans
    ({ clientRegistered := true, sinkWritable := true,
       transportRegistered := false, transportCloseCalls := 0,
       sinkEndCalls := 0, sinkWrites := [], childStdin := [] } :
      SessionState) (Json.obj []) true (Or.inl rfl)

/-- C5 counterexample: a Submit addressed to an existing session (client
registered) whose transport is no longer available answers HTTP 404, not
the HTTP 409 the claim requires; the addressed handler has no 409
branch. -/
theorem submit_unavailable_transport_is_404_not_409 :
    ({ clientRegistered := true, sinkWritable := true,
       transportRegistered := false, transportCloseCalls := 0,
       sinkEndCalls := 0, sinkWrites := [], childStdin := [] } :
      SessionState).clientRegistered = true ∧
    (handleClientMessage
        ({ clientRegistered := true, sinkWritable := true,
           transportRegistered := false, transportCloseCalls := 0,
           sinkEndCalls := 0, sinkWrites := [], childStdin := [] } :
          SessionState) true (some (Json.obj [])) true).1 = 404 ∧
    (404 : Nat) ≠ 409 := by
  refine ⟨rfl, rfl, by decide⟩

/-- C5 amended: a Submit addressed to a client id with no registered
session answers HTTP 404 and writes no event to the stream, and a Submit
addressed to an existing session whose transport is no longer available
also answers HTTP 404 (running the cleanup path), not 409. -/
theorem submit_status_codes (st : SessionState) (body : Json)
    (sendOk : Bool) :
    (st.clientRegistered = false → st.transportRegistered = false →
      (handleClientMessage st true (some body) sendOk).1 = 404 ∧
      (handleClientMessage st true (some body) sendOk).2.sinkWrites
        = st.sinkWrites) ∧
    (st.clientRegistered = true → st.transportRegistered = false →
      (handleClientMessage st true (some body) sendOk).1 = 404 ∧
      (handleClientMessage st true (some body) sendOk).2.clientRegistered
        = false) := by
  constructor
  · intro _ hT
    have hbranch : handleClientMessage st true (some body) sendOk
        = (404, cleanupClient st) := by
      simp [handleClientMessage, hT]
    rw [hbranch]
    exact ⟨rfl, cleanupClient_sinkWrites st⟩
  · intro _ hT
    have hbranch : handleClientMessage st true (some body) sendOk
        = (404, cleanupClient st) := by
      simp [handleClientMessage, hT]
    rw [hbranch]
    exact ⟨rfl, cleanupClient_clientRegistered st⟩

/-- C5 witness: the amended theorem evaluated at an unknown client id and
at a transportless session. -/
theorem submit_status_codes_witness :
    (handleClientMessage
        ({ clientRegistered := false, sinkWritable := false,
           transportRegistered := false, transportCloseCalls := 0,
           sinkEndCalls := 0, sinkWrites := [], childStdin := [] } :
          SessionState) true (some (Json.obj [])) true).1 = 404 ∧
    (handleClientMessage
        ({ clientRegistered := false, sinkWritable := false,
           transportRegistered := false, transportCloseCalls := 0,
           sinkEndCalls := 0, sinkWrites := [], childStdin := [] } :
          SessionState) true (some (Json.obj [])) true).2.sinkWrites = [] ∧
    (handleClientMessage
        ({ clientRegistered := true, sinkWritable := true,
           transportRegistered := false, transportCloseCalls := 0,
           sinkEndCalls := 0, sinkWrites := [], childStdin := [] } :
          SessionState) true (some (Json.obj [])) true).1 = 404 := by
  have h1 := (submit_status_codes
    ({ clientRegistered := false, sinkWritable := false,
       transportRegistered := false, transportCloseCalls := 0,
       sinkEndCalls := 0, sinkWrites := [], childStdin := [] } :
      SessionState) (Json.obj []) true).1 rfl rfl
  have h2 := (submit_status_codes
    ({ clientRegistered := true, sinkWritable := true,
       transportRegistered := false, transportCloseCalls := 0,
       sinkEndCalls := 0, sinkWrites := [], childStdin := [] } :
      SessionState) (Json.obj []) true).2 rfl rfl
  exact ⟨h1.1, h1.2, h2.1⟩

/-- Relaying a list of child messages produces no `connectionStatus`
events. -/
theorem filter_connected_map_mcp (l : List Json) :
    (l.map RelayEvent.mcpMessage).filter RelayEvent.isConnectedStatus
      = [] := by
  induction l with
  | nil => rfl
  | cons a t ih => simp [RelayEvent.isConnectedStatus, ih]

/-- C3: for a valid open configuration (non-empty command, well-formed
args and env, stdio transport, successful spawn), exactly one
`connectionStatus` event with status connected is written to the
session stream, it sits at index 1 right after `clientIdAssigned`, and
every `mcpMessage` event sits at a strictly later index. -/
theorem connected_once_before_messages (cid : String)
    (transport : Option String) (msgs : List Json)
    (hT : toLowerCase (transport.getD "") = "stdio") :
    (((handleSseConnection cid transport true true true true msgs).1).filter
        RelayEvent.isConnectedStatus).length = 1 ∧
    ((handleSseConnection cid transport true true true true msgs).1).get? 1
      = some (RelayEvent.connectionStatus "connected" none) ∧
    (∀ k p,
      ((handleSseConnection cid transport true true true true msgs).1).get? k
        = some (RelayEvent.mcpMessage p) → 1 < k) := by
  have hevs : (handleSseConnection cid transport true true true true msgs).1
      = RelayEvent.clientIdAssigned cid ::
          RelayEvent.connectionStatus "connected" none ::
          msgs.map RelayEvent.mcpMessage := by
    simp [handleSseConnection, hT]
  rw [hevs]
  refine ⟨?_, rfl, ?_⟩
  · simp [List.filter, RelayEvent.isConnectedStatus,
      filter_connected_map_mcp]
  · intro k p hk
    match k with
    | 0 => simp [List.get?] at hk
    | 1 => simp [List.get?] at hk
    | n + 2 => omega

/-- C3 witness: the theorem evaluated at a concrete stdio open with one
child message. -/
theorem connected_once_before_messages_witness :
    (((handleSseConnection "abc" (some "stdio") true true true true
        [Json.obj [("jsonrpc", Json.str "2.0")]]).1).filter
        RelayEvent.isConnectedStatus).length = 1 ∧
    ((handleSseConnection "abc" (some "stdio") true true true true
        [Json.obj [("jsonrpc", Json.str "2.0")]]).1).get? 1
      = some (RelayEvent.connectionStatus "connected" none) ∧
    (∀ k p,
      ((handleSseConnection "abc" (some "stdio") true true true true
          [Json.obj [("jsonrpc", Json.str "2.0")]]).1).get? k
        = some (RelayEvent.mcpMessage p) → 1 < k) :=
  connected_once_before_messages "abc" (some "stdio")
    [Json.obj [("jsonrpc", Json.str "2.0")]] rfl

/-- C6 counterexample: an Open whose `transport` query parameter is the
string STDIO, which does not equal stdio, nevertheless spawns the child
process and emits `connectionStatus` connected, because the handler
lowercases the parameter before comparing. -/
theorem transport_check_is_case_insensitive :
    (some "STDIO" : Option String) ≠ some "stdio" ∧
    (handleSseConnection "abc" (some "STDIO") true true true true []).2
      = true ∧
    (handleSseConnection "abc" (some "STDIO") true true true true []).1
      = [RelayEvent.clientIdAssigned "abc",
         RelayEvent.connectionStatus "connected" none] := by
  refine ⟨by decide, rfl, rfl⟩

/-- C6 amended: for every Open whose transport parameter does not
case-insensitively equal stdio (that is, whose lowercased value differs
from stdio), the handler reports a `connectionStatus` error event, never
attempts to spawn a child process, and never emits `connectionStatus`
connected. -/
theorem unsupported_transport_never_spawns (cid : String)
    (transport : Option String) (cOk aOk eOk sOk : Bool)
    (msgs : List Json)
    (hT : toLowerCase (transport.getD "") ≠ "stdio") :
    (handleSseConnection cid transport cOk aOk eOk sOk msgs).2 = false ∧
    (∀ ev ∈ (handleSseConnection cid transport cOk aOk eOk sOk msgs).1,
      RelayEvent.isConnectedStatus ev = false) ∧
    (∃ ev ∈ (handleSseConnection cid transport cOk aOk eOk sOk msgs).1,
      RelayEvent.isErrorStatus ev = true) := by
  cases cOk <;> cases aOk <;> cases eOk <;>
    simp [handleSseConnection, hT, RelayEvent.isConnectedStatus,
      RelayEvent.isErrorStatus]

/-- C6 witness: the amended theorem evaluated at a transport value sse
with an otherwise valid configuration. -/
theorem unsupported_transport_never_spawns_witness :
    (handleSseConnection "abc" (some "sse") true true true true []).2
      = false ∧
    (∀ ev ∈ (handleSseConnection "abc" (some "sse") true true true true
        []).1, RelayEvent.isConnectedStatus ev = false) ∧
    (∃ ev ∈ (handleSseConnection "abc" (some "sse") true true true true
        []).1, RelayEvent.isErrorStatus ev = true) :=
  unsupported_transport_never_spawns "abc" (some "sse") true true true
    true [] (by decide)

/-- Processing a concatenation of lines processes each run in order. -/
theorem processStdout_go_append (parse : String → Option Json)
    (a b : List String) :
    processStdoutData.go parse (a ++ b)
      = processStdoutData.go parse a ++ processStdoutData.go parse b := by
  induction a with
  | nil => rfl
  | cons l t ih => simp [processStdoutData.go, ih]

/-- Every `mcpMessage` event in the stdout relay output comes from a line
that `JSON.parse` accepted. -/
theorem mcp_mem_processStdout_go (parse : String → Option Json)
    (ls : List String) (p : Json)
    (h : RelayEvent.mcpMessage p ∈ processStdoutData.go parse ls) :
    ∃ l ∈ ls, parse l = some p := by
  induction ls with
  | nil => simp [processStdoutData.go] at h
  | cons l t ih =>
      simp only [processStdoutData.go, List.mem_append] at h
      rcases h with h | h
      · refine ⟨l, List.mem_cons_self l t, ?_⟩
        unfold processLine at h
        split at h
        · simp at h
        · cases hp : parse l with
          | none => rw [hp] at h; simp at h
          | some j => rw [hp] at h; simp at h; rw [h]
      · obtain ⟨w, hw, hpw⟩ := ih h
        exact ⟨w, List.mem_cons_of_mem l hw, hpw⟩

/-- C4: a complete, non-blank stdout line that `JSON.parse` rejects is
relayed as exactly one `logMessage` event with source stdout and content
equal to the raw line; the events of the whole chunk are the
concatenation of the per-line events, so the failing line leaves every
other line's events intact; and no `mcpMessage` event ever originates
from a line that failed to parse. -/
theorem nonjson_line_logged_and_isolated (parse : String → Option Json)
    (data line : String) (pre post : List String)
    (hsplit : splitLines data = pre ++ line :: post)
    (hblank : trimString line ≠ "") (hfail : parse line = none) :
    processLine parse line = [RelayEvent.logMessage "stdout" line] ∧
    processStdoutData parse data
      = processStdoutData.go parse pre
          ++ [RelayEvent.logMessage "stdout" line]
          ++ processStdoutData.go parse post ∧
    (∀ p, RelayEvent.mcpMessage p ∈ processStdoutData parse data →
      ∃ l ∈ splitLines data, parse l = some p) := by
  have hline : processLine parse line
      = [RelayEvent.logMessage "stdout" line] := by
    unfold processLine
    rw [if_neg hblank, hfail]
  refine ⟨hline, ?_, ?_⟩
  · unfold processStdoutData
    rw [hsplit, processStdout_go_append]
    simp [processStdoutData.go, hline]
  · intro p hp
    exact mcp_mem_processStdout_go parse (splitLines data) p hp

/-- C4 witness: the theorem evaluated with a parser that rejects the two
lines of a concrete chunk. -/
theorem nonjson_line_logged_and_isolated_witness :
    processLine (fun _ => none) "hello"
      = [RelayEvent.logMessage "stdout" "hello"] ∧
    processStdoutData (fun _ => none) "hello\nworld"
      = processStdoutData.go (fun _ => none) []
          ++ [RelayEvent.logMessage "stdout" "hello"]
          ++ processStdoutData.go (fun _ => none) ["world"] ∧
    (∀ p, RelayEvent.mcpMessage p
        ∈ processStdoutData (fun _ => none) "hello\nworld" →
      ∃ l ∈ splitLines "hello\nworld", (fun (_ : String) => none) l
        = some p) :=
  nonjson_line_logged_and_isolated (fun _ => none) "hello\nworld" "hello"
    [] ["world"] rfl (by decide) rfl

/-- Looking up a key right after assigning it yields the assigned
value. -/
theorem lookup_setFields (fields : List (String × Json)) (key : String)
    (v : Json) : (setFields fields key v).lookup key = some v := by
  induction fields with
  | nil => simp [setFields]
  | cons p t ih =>
      obtain ⟨k, w⟩ := p
      by_cases hk : k = key
      · subst hk
        simp [setFields]
      · simp only [setFields, if_neg hk, List.lookup]
        have : (key == k) = false := by
          simp [Ne.symm hk]
        rw [this]
        exact ih

/-- Property lookup after property assignment on a JSON object. -/
theorem getField_setField_obj (fields : List (String × Json))
    (key : String) (v : Json) :
    (Json.setField (Json.obj fields) key v).getField key = some v := by
  simp [Json.setField, Json.getField, lookup_setFields]

/-- A value with a present field is an object. -/
theorem exists_fields_of_hasField (rd : Json) (key : String)
    (h : rd.hasField key = true) : ∃ fields, rd = Json.obj fields := by
  cases rd with
  | obj f => exact ⟨f, rfl⟩
  | null => simp [Json.hasField, Json.getField] at h
  | bool b => simp [Json.hasField, Json.getField] at h
  | num n => simp [Json.hasField, Json.getField] at h
  | str s => simp [Json.hasField, Json.getField] at h
  | arr xs => simp [Json.hasField, Json.getField] at h

/-- C1 counterexample: a Submit body carrying the explicit JSON-RPC id 0
does not reach the child unchanged: because the legacy handler guards id
generation with a JavaScript truthiness test, the falsy explicit id 0 is
replaced by the generated id. -/
theorem explicit_zero_id_replaced :
    normalizeRequest "req-1700000000000"
        (Json.obj [("jsonrpc", Json.str "2.0"), ("method", Json.str "ping"),
          ("id", Json.num 0)])
      = some (Json.obj [("jsonrpc", Json.str "2.0"),
          ("method", Json.str "ping"),
          ("id", Json.str "req-1700000000000")]) ∧
    Json.num 0 ≠ Json.str "req-1700000000000" :=
  ⟨rfl, fun h => Json.noConfusion h⟩

/-- C1 amended: the clientId-addressed handler forwards the Submit body
to the child verbatim (so an explicit id is unchanged, but a missing id
is not generated there), while the legacy handler generates an id exactly
when the existing id is absent or falsy: a truthy explicit id is
preserved, and an absent-or-falsy id is replaced by the generated one. -/
theorem submit_id_forwarding (st : SessionState) (m : Json)
    (genId : String) (rdT rdF : Json)
    (hT : st.transportRegistered = true)
    (hC : st.clientRegistered = true)
    (hT1 : rdT.hasField "jsonrpc" = true)
    (hT2 : rdT.hasField "method" = true)
    (hT3 : truthyOpt (rdT.getField "id") = true)
    (hF1 : rdF.hasField "jsonrpc" = true)
    (hF2 : rdF.hasField "method" = true)
    (hF3 : truthyOpt (rdF.getField "id") = false) :
    (handleClientMessage st true (some m) true).2.childStdin
      = st.childStdin ++ [m] ∧
    (normalizeRequest genId rdT).bind (fun j => j.getField "id")
      = rdT.getField "id" ∧
    (normalizeRequest genId rdF).bind (fun j => j.getField "id")
      = some (Json.str genId) := by
  refine ⟨?_, ?_, ?_⟩
  · simp [handleClientMessage, hT, hC]
  · obtain ⟨fields, hfields⟩ := exists_fields_of_hasField rdT "jsonrpc" hT1
    have hbranch : normalizeRequest genId rdT
        = some (rdT.setField "id" ((rdT.getField "id").getD .null)) := by
      unfold normalizeRequest
      rw [hT1, hT2, hT3]
      simp
    rw [hbranch]
    cases hid : rdT.getField "id" with
    | none => rw [hid] at hT3; simp [truthyOpt] at hT3
    | some j =>
        rw [hfields]
        simp [getField_setField_obj]
  · obtain ⟨fields, hfields⟩ := exists_fields_of_hasField rdF "jsonrpc" hF1
    have hbranch : normalizeRequest genId rdF
        = some (rdF.setField "id" (Json.str genId)) := by
      unfold normalizeRequest
      rw [hF1, hF2, hF3]
      simp
    rw [hbranch, hfields]
    simp [getField_setField_obj]

/-- C1 witness: the amended theorem evaluated at a live session, a body
with the truthy id list-1, and a body whose id is absent. -/
theorem submit_id_forwarding_witness :
    (handleClientMessage
        ({ clientRegistered := true, sinkWritable := true,
           transportRegistered := true, transportCloseCalls := 0,
           sinkEndCalls := 0, sinkWrites := [], childStdin := [] } :
          SessionState) true
        (some (Json.obj [("jsonrpc", Json.str "2.0"),
          ("method", Json.str "ping"), ("id", Json.str "list-1")]))
        true).2.childStdin
      = [Json.obj [("jsonrpc", Json.str "2.0"),
          ("method", Json.str "ping"), ("id", Json.str "list-1")]] ∧
    (normalizeRequest "req-9"
        (Json.obj [("jsonrpc", Json.str "2.0"),
          ("method", Json.str "ping"),
          ("id", Json.str "list-1")])).bind (fun j => j.getField "id")
      = (Json.obj [("jsonrpc", Json.str "2.0"),
          ("method", Json.str "ping"),
          ("id", Json.str "list-1")]).getField "id" ∧
    (normalizeRequest "req-9"
        (Json.obj [("jsonrpc", Json.str "2.0"),
          ("method", Json.str "ping")])).bind (fun j => j.getField "id")
      = some (Json.str "req-9") :=
  submit_id_forwarding
    ({ clientRegistered := true, sinkWritable := true,
       transportRegistered := true, transportCloseCalls := 0,
       sinkEndCalls := 0, sinkWrites := [], childStdin := [] } :
      SessionState)
    (Json.obj [("jsonrpc", Json.str "2.0"), ("method", Json.str "ping"),
      ("id", Json.str "list-1")])
    "req-9"
    (Json.obj [("jsonrpc", Json.str "2.0"), ("method", Json.str "ping"),
      ("id", Json.str "list-1")])
    (Json.obj [("jsonrpc", Json.str "2.0"), ("method", Json.str "ping")])
    rfl rfl rfl rfl rfl rfl rfl rfl

/-- Flushing the queue with no client id assigned drops every queued
request into `onCommandError` reports. -/
theorem processPendingRequests_no_cid (st : McpCommState)
    (h : st.clientId = none) :
    processPendingRequests st
      = { st with pendingRequests := [],
                  commandErrors := st.commandErrors
                    ++ st.pendingRequests.map PendingRequest.type } := by
  induction st using processPendingRequests.induct with
  | case1 s hq =>
      obtain ⟨ic, ii, cid, pr, sb, ce⟩ := s
      simp only at hq h
      subst hq
      rw [processPendingRequests.eq_def]
      simp
  | case2 s r rest hq ih =>
      obtain ⟨ic, ii, cid, pr, sb, ce⟩ := s
      simp only at hq h
      subst hq
      subst h
      rw [processPendingRequests.eq_def]
      simp only [sendRequestToBackend] at ih ⊢
      rw [ih (by simp)]
      simp

/-- Flushing the queue with a client id assigned posts every queued
request to the Gateway inbound endpoint, in order. -/
theorem processPendingRequests_with_cid (st : McpCommState) (c : String)
    (h : st.clientId = some c) :
    processPendingRequests st
      = { st with pendingRequests := [],
                  sentToBackend := st.sentToBackend ++ st.pendingRequests } := by
  induction st using processPendingRequests.induct with
  | case1 s hq =>
      obtain ⟨ic, ii, cid, pr, sb, ce⟩ := s
      simp only at hq h
      subst hq
      rw [processPendingRequests.eq_def]
      simp
  | case2 s r rest hq ih =>
      obtain ⟨ic, ii, cid, pr, sb, ce⟩ := s
      simp only at hq h
      subst hq
      subst h
      rw [processPendingRequests.eq_def]
      simp only [sendRequestToBackend] at ih ⊢
      rw [ih (by simp)]
      simp

/-- Requests issued while the service is not both connected and
initialized are all appended to the queue, in issue order, and the
readiness flags and client id are untouched. -/
theorem foldl_sendRequest_buffers (rs : List PendingRequest) :
    ∀ st : McpCommState, (st.isConnected && st.isInitialized) = false →
      rs.foldl sendRequest st
        = { st with pendingRequests := st.pendingRequests ++ rs } := by
  induction rs with
  | nil => intro st _; simp
  | cons r t ih =>
      intro st h
      have hstep : sendRequest st r
          = { st with pendingRequests := st.pendingRequests ++ [r] } := by
        simp [sendRequest, h]
      simp only [List.foldl, hstep]
      rw [ih _ (by simp [h])]
      simp

/-- C7 counterexample: a request buffered while the session is not Ready
and flushed by the readiness signal before the proxy has assigned a
client id is not dispatched to the Gateway at all: it is dropped with a
`commandError` report, so the buffered request is dispatched zero times,
not exactly once. -/
theorem queued_request_dropped_without_client_id :
    (becomeReady
        ({ isConnected := false, isInitialized := false, clientId := none,
           pendingRequests := [{ type := "tools/list", payload := Json.obj [], id := none }],
           sentToBackend := [], commandErrors := [] } :
          McpCommState)).sentToBackend = [] ∧
    (becomeReady
        ({ isConnected := false, isInitialized := false, clientId := none,
           pendingRequests := [{ type := "tools/list", payload := Json.obj [], id := none }],
           sentToBackend := [], commandErrors := [] } :
          McpCommState)).commandErrors = ["tools/list"] := by
  constructor <;>
    simp [becomeReady, processPendingRequests, sendRequestToBackend]

/-- C7 amended: every request issued while the service is not Ready is
buffered in issue order; the readiness signal empties the queue in one
pass, and each buffered request is then dispatched to the Gateway inbound
endpoint exactly once, in issue order, provided the proxy has already
assigned a client id — with no client id assigned the flush instead drops
each request with a `commandError` report. -/
theorem buffered_requests_flush_on_ready (st : McpCommState)
    (rs : List PendingRequest)
    (h : (st.isConnected && st.isInitialized) = false) :
    (rs.foldl sendRequest st).pendingRequests
      = st.pendingRequests ++ rs ∧
    (becomeReady (rs.foldl sendRequest st)).pendingRequests = [] ∧
    (∀ c, st.clientId = some c →
      (becomeReady (rs.foldl sendRequest st)).sentToBackend
        = st.sentToBackend ++ (st.pendingRequests ++ rs)) ∧
    (st.clientId = none →
      (becomeReady (rs.foldl sendRequest st)).sentToBackend
        = st.sentToBackend ∧
      (becomeReady (rs.foldl sendRequest st)).commandErrors
        = st.commandErrors
          ++ (st.pendingRequests ++ rs).map PendingRequest.type) := by
  have hfold := foldl_sendRequest_buffers rs st h
  refine ⟨by rw [hfold], ?_, ?_, ?_⟩
  · rw [hfold]
    unfold becomeReady
    cases hc : st.clientId with
    | none => rw [processPendingRequests_no_cid _ (by simp [hc])]
    | some c => rw [processPendingRequests_with_cid _ c (by simp [hc])]
  · intro c hc
    rw [hfold]
    unfold becomeReady
    rw [processPendingRequests_with_cid _ c (by simp [hc])]
  · intro hc
    rw [hfold]
    unfold becomeReady
    rw [processPendingRequests_no_cid _ (by simp [hc])]
    simp

/-- C7 witness: the amended theorem evaluated at a not-yet-ready service
that already has a client id, one already-queued request and one newly
issued request. -/
theorem buffered_requests_flush_on_ready_witness :
    (([({ type := "tools/call", payload := Json.obj [], id := none } :
        PendingRequest)]).foldl sendRequest
        ({ isConnected := true, isInitialized := false,
           clientId := some "abc",
           pendingRequests := [{ type := "tools/list", payload := Json.obj [], id := none }],
           sentToBackend := [], commandErrors := [] } :
          McpCommState)).pendingRequests
      = [{ type := "tools/list", payload := Json.obj [], id := none },
         { type := "tools/call", payload := Json.obj [], id := none }] ∧
    (becomeReady
        (([({ type := "tools/call", payload := Json.obj [], id := none } :
          PendingRequest)]).foldl sendRequest
          ({ isConnected := true, isInitialized := false,
             clientId := some "abc",
             pendingRequests := [{ type := "tools/list", payload := Json.obj [], id := none }],
             sentToBackend := [], commandErrors := [] } :
            McpCommState))).sentToBackend
      = [{ type := "tools/list", payload := Json.obj [], id := none },
         { type := "tools/call", payload := Json.obj [], id := none }] := by
  have h := buffered_requests_flush_on_ready
    ({ isConnected := true, isInitialized := false, clientId := some "abc",
       pendingRequests := [{ type := "tools/list", payload := Json.obj [], id := none }],
       sentToBackend := [], commandErrors := [] } : McpCommState)
    [({ type := "tools/call", payload := Json.obj [], id := none } :
      PendingRequest)] rfl
  exact ⟨h.1, h.2.2.1 "abc" rfl⟩

/-- C8 counterexample: the id generator is deterministic in the random
draw and the handler performs no collision check, so two Open calls whose
draws coincide are assigned identical session ids: the ids of the
two-call sequence with draws 5 and 5 are not distinct. -/
theorem identical_draws_identical_ids :
    generateClientId 5 = generateClientId 5 ∧
    ¬ (openSessionIds [5, 5]).Nodup :=
  ⟨rfl, by decide⟩

/-- Fixed-width base-36 expansion is inverted by its evaluation. -/
theorem fromDigitsLE_toDigitsLE (k : Nat) :
    ∀ n : Nat, n < 36 ^ k → fromDigitsLE (toDigitsLE k n) = n := by
  induction k with
  | zero =>
      intro n h
      simp only [pow_zero, Nat.lt_one_iff] at h
      subst h
      rfl
  | succ k ih =>
      intro n h
      have hdiv : n / 36 < 36 ^ k := by
        rw [Nat.div_lt_iff_lt_mul (by norm_num : (0 : Nat) < 36)]
        calc n < 36 ^ (k + 1) := h
          _ = 36 ^ k * 36 := by ring
      simp only [toDigitsLE, fromDigitsLE]
      rw [ih (n / 36) hdiv]
      omega

/-- C8 amended: session ids are deterministic in the Math.random draw,
with no collision check: two Open calls are assigned distinct session
ids whenever their random draws differ (the generator is injective on
the draws of the modelled thirteen-digit range), and only then — equal
draws yield equal ids, so lifetime uniqueness is probabilistic rather
than guaranteed. -/
theorem generateClientId_injective_on_draws (r1 r2 : Nat)
    (h1 : r1 < 36 ^ 13) (h2 : r2 < 36 ^ 13) (hne : r1 ≠ r2) :
    generateClientId r1 ≠ generateClientId r2 := by
  intro h
  apply hne
  have hval := congrArg fromDigitsLE h
  rwa [generateClientId, generateClientId,
    fromDigitsLE_toDigitsLE 13 r1 h1, fromDigitsLE_toDigitsLE 13 r2 h2]
    at hval

/-- C8 witness: the amended theorem evaluated at the draws 7 and 8. -/
theorem generateClientId_injective_on_draws_witness :
    generateClientId 7 ≠ generateClientId 8 :=
  generateClientId_injective_on_draws 7 8 (by norm_num) (by norm_num)
    (by norm_num)

end McpInspector
